import Mathlib

/-!
Shallow embedding of the `discohook` interaction-dispatch engine.

Source files embedded here:
* `src/discohook/handler.py` — the webhook route: Ed25519 request
  verification followed by the interaction-type dispatch chain.
* `src/discohook/client.py`  — command registration and the one-time
  startup synchronization pass.
* `src/discohook/params.py`  — `merge_fields` and `handle_edit_params`.
* `src/discohook/user.py`    — `User.__eq__`.

Python dictionaries are modelled as association lists (`assocGet` /
`dictSet`), machine-level bytes as `List Nat`, and fallible Python code as
`Except` values, where `.error` stands for an exception propagating out of
the modelled code.  User-supplied coroutine callbacks are modelled as
functions returning `Except Exn Unit` so that a callback may raise.
-/

namespace Discohook

/-- Exceptions are identified by a message string. -/
abbrev Exn := String

/-! ## Python dict as an association list -/

/-- Python `dict.get(key)` / `dict[key]` lookup over an insertion-ordered
association list; `none` models both `dict.get` returning `None` and a
`KeyError` site (distinguished at each use site). -/
def assocGet {α : Type} : List (String × α) → String → Option α
  | [], _ => none
  | p :: rest, k => if p.1 = k then some p.2 else assocGet rest k

/-- Python `dict[key] = value`: replace in place if the key exists,
otherwise append, preserving insertion order. -/
def dictSet {α : Type} : List (String × α) → String → α → List (String × α)
  | [], k, v => [(k, v)]
  | p :: rest, k, v => if p.1 = k then (k, v) :: rest else p :: dictSet rest k v

/-! ## Bytes and hex decoding (`bytes.fromhex`, `str.encode`) -/

/-- Value of a single hexadecimal digit, `none` for a non-hex character. -/
def hexDigitVal (c : Char) : Option Nat :=
  if ('0' ≤ c ∧ c ≤ '9') then some (c.toNat - '0'.toNat)
  else if ('a' ≤ c ∧ c ≤ 'f') then some (c.toNat - 'a'.toNat + 10)
  else if ('A' ≤ c ∧ c ≤ 'F') then some (c.toNat - 'A'.toNat + 10)
  else none

/-- Decode a list of characters taken two at a time into bytes; `none`
models `bytes.fromhex` raising `ValueError` (odd length or non-hex digit). -/
def fromHexChars : List Char → Option (List Nat)
  | [] => some []
  | [_] => none
  | c1 :: c2 :: rest =>
    match hexDigitVal c1, hexDigitVal c2, fromHexChars rest with
    | some h, some l, some bs => some ((h * 16 + l) :: bs)
    | _, _, _ => none

/-- Python `bytes.fromhex` (without the whitespace-skipping extension,
which no input in this code base uses). -/
def fromHex (s : String) : Option (List Nat) := fromHexChars s.data

/-- Python `str(x)` applied to an optional header value: `str(None)` is the
four-character string `"None"`. -/
def pyStr : Option String → String
  | none => "None"
  | some s => s

/-- Python `str.encode()` (UTF-8 bytes). -/
def strBytes (s : String) : List Nat := s.toUTF8.toList.map (fun b => b.toNat)

/-! ## Interaction payload model

`interaction.py` and `enums.py` of this repository are not included under
`src/`; the structures and integer constants below are modelled from the
spec (§3 "Interaction", §4.4 routing table, §6 "`type` (integer enum)"),
using the platform wire-format field names that `handler.py` reads. -/

/-- Modelled from the spec: a JSON scalar occurring as an option value. -/
inductive PyVal where
  | vstr (s : String)
  | vint (n : Int)
  | vbool (b : Bool)
  | vnone
deriving DecidableEq

/-- Python truthiness of a `PyVal`. -/
def PyVal.truthy : PyVal → Bool
  | .vstr s => !s.isEmpty
  | .vint n => n ≠ 0
  | .vbool b => b
  | .vnone => false

/-- Modelled from the spec: one entry of the interaction option tree
(`name`, `type`, `value`, and the autocomplete `focused` marker). -/
structure AppCmdOption where
  name : String := ""
  type : Nat := 0
  value : PyVal := .vnone
  focused : Bool := false
deriving DecidableEq

/-- Modelled from the spec: the `data` object of an interaction payload,
holding exactly the keys `handler.py` reads (`id`, `type`, `options`,
`custom_id`, `component_type`). -/
structure InteractionData where
  id : String := ""
  type : Nat := 1
  options : List AppCmdOption := []
  custom_id : String := ""
  component_type : Nat := 0
deriving DecidableEq

/-- Modelled from the spec: a parsed interaction; `_app_command_data.id`
read on `handler.py` line 38 and `interaction.data['id']` read on line 93
are both the `id` field of `data`. -/
structure Interaction where
  type : Nat := 0
  data : InteractionData := {}
deriving DecidableEq

namespace InteractionType

/-- Modelled from the spec: `enums.py` is not under `src/`; the interaction
kind codes are the platform integer enum referenced by §6. -/
def ping : Nat := 1

def app_command : Nat := 2

def component : Nat := 3

def autocomplete : Nat := 4

def modal_submit : Nat := 5

end InteractionType

namespace InteractionCallbackType

/-- Modelled from the spec: the liveness acknowledgement callback code. -/
def pong : Nat := 1

end InteractionCallbackType

namespace AppCmdType

/-- Modelled from the spec: slash-style application command category. -/
def slash : Nat := 1

end AppCmdType

namespace AppCmdOptionType

/-- Modelled from the spec: option type code of a nested subcommand. -/
def subcommand : Nat := 1

end AppCmdOptionType

namespace MessageComponentType

/-- Modelled from the spec: component type code of a button. -/
def button : Nat := 2

/-- Modelled from the spec: component type code of a select menu. -/
def select_menu : Nat := 3

end MessageComponentType

/-! ## Handlers, commands, components, application state -/

/-- An argument value passed to a user callback.  `inter` is the
interaction context object itself; `cog` is the grouping object attached
to a command; the remaining constructors carry bound option data. -/
inductive Arg where
  | inter
  | cog (tag : Nat)
  | str (s : String)
  | val (v : PyVal)
  | target
deriving DecidableEq

/-- A user coroutine callback: `run` returns `.ok` on normal completion
and `.error e` when the user code raises exception `e`.  `tag` identifies
the callback so invocations can be traced. -/
structure Callback where
  tag : Nat
  run : List Arg → Except Exn Unit

/-- Embedding of `ApplicationCommand` as used by `handler.py` and
`client.py` (`command.py` itself is not under `src/`; the fields are the
attributes those two files read: `id`, `name`, `guild_id`, `cog`,
`_callback`, `_subcommand_callbacks`, `_autocomplete_callback`, plus the
declared option list used by the registration surface). -/
structure Command where
  id : String := ""
  name : String := ""
  guild_id : Option Int := none
  cog : Option Nat := none
  callback : Option Callback := none
  subcommand_callbacks : List (String × Callback) := []
  autocomplete_callback : Option Callback := none
  options : List AppCmdOption := []

/-- A UI component registration from `ui_factory` (button, select menu or
modal): a custom id and a callback. -/
structure Component where
  custom_id : String := ""
  callback : Option Callback := none

/-- The slice of the `Client` (FastAPI app) state that `handler.py`
reads: the two registry tables, the populated-response slot, and whether a
process-wide `_global_error_handler` is installed. -/
structure AppState where
  application_commands : List (String × Command) := []
  ui_factory : List (String × Component) := []
  populated_return : Option Nat := none
  error_hook : Bool := false

/-- Modelled from the spec: `cmdparse.py` is not under `src/`.  The four
binder functions (§4.5) produce bound arguments from the interaction; the
dispatch claims below do not depend on their internals, only on where
their output is placed in a call's argument list. -/
structure Binders where
  slash_params : Interaction → List Arg
  context_menu_param : Interaction → Arg
  select_menu_values : Interaction → Arg
  modal_params : Interaction → List Arg

/-! ## Responses and observable handler outcomes -/

/-- An HTTP response object produced by the route. -/
inductive Response where
  | text (content : String) (status : Nat)
  | jsonObj (fields : List (String × PyVal)) (status : Nat)
  | ephemeral (content : String)
  | populated (v : Nat)
deriving DecidableEq

/-- What the HTTP layer receives from the route coroutine: a response
object, `None` (the function fell off the end), or an exception that
propagated uncaught out of the route. -/
inductive HttpResult where
  | resp (r : Response)
  | nothing
  | raised (e : Exn)
deriving DecidableEq

/-- One traced callback invocation: which callback ran, with which
argument list. -/
structure RecordedCall where
  tag : Nat
  args : List Arg
deriving DecidableEq

/-- Observable effects of one request: how many registry/ui-table lookups
ran, which callbacks were invoked, and which exceptions were forwarded to
the global error hook. -/
structure Trace where
  lookups : Nat := 0
  calls : List RecordedCall := []
  hookCalls : List Exn := []
deriving DecidableEq

/-! ## Signature verification (`handler.py` lines 22-28)

`VerifyKey(bytes.fromhex(public_key))` raises `ValueError` for non-hex or
non-32-byte keys; `bytes.fromhex(str(signature))` raises `ValueError` for
a non-hex (in particular missing, i.e. `"None"`) signature header;
`key.verify` raises `ValueError` for a signature that is not exactly 64
bytes and `BadSignatureError` — the only exception the route catches —
when the Ed25519 check fails.  The Ed25519 primitive itself is external
(`nacl`), abstracted as the boolean `verifies key message signature`. -/

/-- Outcome of lines 22-28 of `handler.py`: `.error e` models an uncaught
exception, `.ok false` a `BadSignatureError` (caught, answered with 401),
`.ok true` a verified request. -/
def verifyRequest (verifies : List Nat → List Nat → List Nat → Bool)
    (public_key : String) (timestamp signature : Option String)
    (body : List Nat) : Except Exn Bool :=
  match fromHex public_key with
  | none => .error "ValueError"
  | some key_bytes =>
    if key_bytes.length ≠ 32 then .error "ValueError"
    else
      match fromHex (pyStr signature) with
      | none => .error "ValueError"
      | some sig_bytes =>
        if sig_bytes.length ≠ 64 then .error "ValueError"
        else .ok (verifies key_bytes (strBytes (pyStr timestamp) ++ body) sig_bytes)

/-! ## Dispatch (`handler.py` lines 30-106) -/

/-- Python call `await cb(*args)`: invoking `None` (an absent callback)
raises `TypeError` without recording a call; invoking a real callback
records the call and produces the callback's own outcome. -/
def invokeOpt (cb : Option Callback) (args : List Arg) :
    Except Exn Unit × List RecordedCall :=
  match cb with
  | none => (.error "TypeError: NoneType is not callable", [])
  | some c => (c.run args, [{ tag := c.tag, args := args }])

/-- The `return request.app._populated_return` statement: returns the
populated response object, or `None` when the slot is empty. -/
def returnPopulated (a : AppState) : HttpResult :=
  match a.populated_return with
  | some p => .resp (.populated p)
  | none => .nothing

/-- Invoke an optional callback and finish the branch the way every
dispatch branch of `handler.py` does: an exception from the callback
propagates (to the `try` of line 33), otherwise the populated response
slot is returned.  Each such branch runs after exactly one table lookup. -/
def runCall (cb : Option Callback) (args : List Arg) (a : AppState) :
    HttpResult × Trace :=
  match invokeOpt cb args with
  | (.error e, calls) => (.raised e, { lookups := 1, calls := calls })
  | (.ok _, calls) => (returnPopulated a, { lookups := 1, calls := calls })

/-- Lines 76-83 of `handler.py` (button and select-menu arms): invoke the
component callback, then `if request.app._populated_return: return ...`;
when the slot is empty the function falls through and returns `None`. -/
def runCallFallthrough (cb : Option Callback) (args : List Arg) (a : AppState) :
    HttpResult × Trace :=
  match invokeOpt cb args with
  | (.error e, calls) => (.raised e, { lookups := 1, calls := calls })
  | (.ok _, calls) =>
    match a.populated_return with
    | some p => (.resp (.populated p), { lookups := 1, calls := calls })
    | none => (.nothing, { lookups := 1, calls := calls })

/-- Lines 37-69 of `handler.py`: the `app_command` arm after the registry
lookup has resolved `command`. -/
def appCommandBranch (b : Binders) (inter : Interaction) (a : AppState)
    (command : Command) : HttpResult × Trace :=
  let flat : HttpResult × Trace :=
    match command.cog with
    | some c =>
      runCall command.callback (Arg.cog c :: Arg.inter :: b.slash_params inter) a
    | none =>
      runCall command.callback (Arg.inter :: b.slash_params inter) a
  if inter.data.type ≠ AppCmdType.slash then
    match command.cog with
    | some c =>
      runCall command.callback [Arg.cog c, Arg.inter, b.context_menu_param inter] a
    | none =>
      runCall command.callback [Arg.inter, b.context_menu_param inter] a
  else
    match inter.data.options with
    | o :: _ =>
      if o.type = AppCmdOptionType.subcommand then
        match command.cog with
        | some c =>
          runCall (assocGet command.subcommand_callbacks o.name)
            (Arg.cog c :: Arg.inter :: b.slash_params inter) a
        | none =>
          runCall (assocGet command.subcommand_callbacks o.name)
            (Arg.inter :: b.slash_params inter) a
      else flat
    | [] => flat

/-- The body of the `try` block, lines 34-103 of `handler.py`: the
interaction-type dispatch chain.  `.raised` results are exceptions that
this block lets escape to the `except` clause. -/
def dispatchTry (b : Binders) (inter : Interaction) (a : AppState) :
    HttpResult × Trace :=
  if inter.type = InteractionType.ping then
    (.resp (.jsonObj [("type", PyVal.vint InteractionCallbackType.pong)] 200), {})
  else if inter.type = InteractionType.app_command then
    match assocGet a.application_commands inter.data.id with
    | none => (.resp (.ephemeral "command not implemented"), { lookups := 1 })
    | some command => appCommandBranch b inter a command
  else if inter.type = InteractionType.component then
    match assocGet a.ui_factory inter.data.custom_id with
    | none =>
      (.resp (.jsonObj [("error", PyVal.vstr "component not found!")] 404),
        { lookups := 1 })
    | some comp =>
      if inter.data.component_type = MessageComponentType.button then
        runCallFallthrough comp.callback [Arg.inter] a
      else if inter.data.component_type = MessageComponentType.select_menu then
        runCallFallthrough comp.callback [Arg.inter, b.select_menu_values inter] a
      else (.nothing, { lookups := 1 })
  else if inter.type = InteractionType.modal_submit then
    match assocGet a.ui_factory inter.data.custom_id with
    | none =>
      (.resp (.jsonObj [("error", PyVal.vstr "component not found!")] 404),
        { lookups := 1 })
    | some comp =>
      runCall comp.callback (Arg.inter :: b.modal_params inter) a
  else if inter.type = InteractionType.autocomplete then
    match assocGet a.application_commands inter.data.id with
    | none =>
      (.resp (.jsonObj [("error", PyVal.vstr "command not found!")] 404),
        { lookups := 1 })
    | some command =>
      match inter.data.options with
      | [] => (.raised "IndexError: list index out of range", { lookups := 1 })
      | o :: _ =>
        if o.value.truthy then
          runCall command.autocomplete_callback
            [Arg.inter, Arg.str o.name, Arg.val o.value] a
        else (.nothing, { lookups := 1 })
  else
    (.resp (.jsonObj [("message", PyVal.vstr "unhandled interaction type")] 300), {})

/-- Lines 33-106 of `handler.py`: `except Exception` catches everything
the dispatch chain raised, forwards it to `_global_error_handler` when one
is installed, and falls off the end (the HTTP layer gets `None`). -/
def dispatch (b : Binders) (inter : Interaction) (a : AppState) :
    HttpResult × Trace :=
  match dispatchTry b inter a with
  | (.raised e, t) =>
    if a.error_hook then (.nothing, { t with hookCalls := t.hookCalls ++ [e] })
    else (.nothing, t)
  | r => r

/-- The whole route coroutine `handler` (`handler.py` lines 21-106):
verification first; an uncaught verification exception propagates, a
`BadSignatureError` is answered with the literal 401 response, and only a
verified request reaches payload parsing (`inter`) and dispatch. -/
def handler (verifies : List Nat → List Nat → List Nat → Bool)
    (public_key : String) (timestamp signature : Option String)
    (body : List Nat) (b : Binders) (inter : Interaction) (a : AppState) :
    HttpResult × Trace :=
  match verifyRequest verifies public_key timestamp signature body with
  | .error e => (.raised e, {})
  | .ok false => (.resp (.text "BadSignature" 401), {})
  | .ok true => dispatch b inter a

/-- The spec's routing table (§4.4, autocomplete row) speaks of the
currently-focused option; this definition follows the spec's words for
comparison against what `handler.py` actually reads (`options[0]`). -/
def focusedOption (options : List AppCmdOption) : Option AppCmdOption :=
  options.find? (fun o => o.focused)

/-! ## Registration and startup synchronization (`client.py`) -/

namespace Client

/-- The `Client.command` decorator (`client.py` lines 51-80): builds an
`ApplicationCommand` and immediately runs the wrapper, which — only when
the decorated object is a coroutine function — attaches it as the
command's callback and appends the command to `_qualified_commands`.
There is no inspection of the existing catalog. -/
def command (qualified : List Command) (cmd : Command) (coro : Callback)
    (is_coro : Bool) : List Command :=
  if is_coro then qualified ++ [{ cmd with callback := some coro }] else qualified

/-- `Client.load_commands` (`client.py` lines 82-83): extends the pending
catalog, again without any duplicate check. -/
def load_commands (qualified : List Command) (commands : List Command) :
    List Command :=
  qualified ++ commands

/-- `Client.__sync_cmds` (`client.py` lines 103-115).  `resp k` is the
`id` field of the JSON the platform returned for the `k`-th POST (`none`
models a response lacking the key, whose `KeyError` is re-raised as
`ValueError`).  On success each command receives the returned id and is
indexed in `application_commands` under it; the synced commands and the
final registry are returned. -/
def sync_cmds (resp : Nat → Option String) :
    Nat → List Command → List (String × Command) →
    Except Exn (List Command × List (String × Command))
  | _, [], reg => .ok ([], reg)
  | k, c :: rest, reg =>
    match resp k with
    | none => .error "ValueError"
    | some rid =>
      let c' := { c with id := rid }
      match sync_cmds resp (k + 1) rest (dictSet reg rid c') with
      | .ok (cs, reg') => .ok (c' :: cs, reg')
      | .error e => .error e

/-- `Client.__call__` (`client.py` lines 117-124), restricted to the
state the claims observe: run the one-time sync pass over the pending
catalog starting from an empty registry, then clear the pending list
before the ASGI app starts serving.  Returns the pending list and the
registry as they stand when the first live request can be served. -/
def call (resp : Nat → Option String) (qualified : List Command) :
    Except Exn (List Command × List (String × Command)) :=
  match sync_cmds resp 0 qualified [] with
  | .ok (_, reg) => .ok ([], reg)
  | .error e => .error e

end Client

/-! ## Edit-payload construction (`params.py`) -/

/-- A Python keyword argument that defaults to the `MISSING` sentinel:
the caller left it out (`missing`), passed `None` (`pynone`), or passed a
value. -/
inductive PyOpt (α : Type) where
  | missing
  | pynone
  | val (a : α)

/-- Python `x is None`. -/
def PyOpt.isNone {α : Type} : PyOpt α → Bool
  | .pynone => true
  | _ => false

/-- Python `x is MISSING` (the sentinel identity test of `params.py`). -/
def PyOpt.isMissing {α : Type} : PyOpt α → Bool
  | .missing => true
  | _ => false

/-- Forget the sentinel: the value passed, if any. -/
def PyOpt.toOption {α : Type} : PyOpt α → Option α
  | .val a => some a
  | _ => none

/-- An `Embed` as `params.py` sees it: only `to_dict()` is called, so the
rendered dict is abstracted as a tag. -/
structure Embed where
  to_dict : Nat
deriving DecidableEq

/-- A `View` as `params.py` sees it: only `.components` is read. -/
structure View where
  components : Nat
deriving DecidableEq

/-- A `File` as `params.py` sees it: `.name`, `.spoiler`, `.description`. -/
structure File where
  name : String
  spoiler : Bool := false
  description : Option String := none
deriving DecidableEq

/-- One entry of the `attachments` list `handle_edit_params` builds. -/
structure AttachmentDict where
  id : Nat
  filename : String
  ephemeral : Bool
  description : Option String
deriving DecidableEq

/-- A value stored in the edit payload dict. -/
inductive EditVal where
  | vembeds (l : List Nat)
  | vcomponents (l : Option Nat)
  | vattachments (l : List AttachmentDict)
  | vcontent (s : Option String)
  | vtts (b : Option Bool)
  | vflags (n : Nat)
deriving DecidableEq

/-- `merge_fields` (`params.py` lines 10-16): append the single field if
it is truthy and not `MISSING`, then extend with the list field under the
same test (an object is always truthy; an empty list is falsy). -/
def merge_fields {α : Type} (field : PyOpt α) (fields : PyOpt (List α)) :
    List α :=
  let tmp : List α := []
  let tmp := match field with
    | .val a => tmp ++ [a]
    | _ => tmp
  let tmp := match fields with
    | .val l => if l.isEmpty then tmp else tmp ++ l
    | _ => tmp
  tmp

/-- `handle_edit_params` (`params.py` lines 62-107): build the edit
payload dict by the same sequence of conditional key assignments as the
source. -/
def handle_edit_params (content : PyOpt String) (embed : PyOpt Embed)
    (embeds : PyOpt (List Embed)) (view : PyOpt View) (tts : PyOpt Bool)
    (file : PyOpt File) (files : PyOpt (List File))
    (suppress_embeds : PyOpt Bool) : List (String × EditVal) :=
  let payload : List (String × EditVal) := []
  let payload := if embed.isNone then dictSet payload "embeds" (.vembeds []) else payload
  let payload := if embeds.isNone then dictSet payload "embeds" (.vembeds []) else payload
  let payload := if view.isNone then dictSet payload "components" (.vcomponents none) else payload
  let payload := if file.isNone then dictSet payload "attachments" (.vattachments []) else payload
  let payload := if files.isNone then dictSet payload "attachments" (.vattachments []) else payload
  let embedsMerged := merge_fields embed embeds
  let filesMerged := merge_fields file files
  let payload := if ¬ content.isMissing then dictSet payload "content" (.vcontent content.toOption) else payload
  let payload := if ¬ tts.isMissing then dictSet payload "tts" (.vtts tts.toOption) else payload
  let payload := if ¬ embedsMerged.isEmpty then
      dictSet payload "embeds" (.vembeds (embedsMerged.map Embed.to_dict))
    else payload
  let payload := if ¬ view.isMissing then
      dictSet payload "components"
        (.vcomponents (match view with | .val v => some v.components | _ => none))
    else payload
  let payload := if ¬ filesMerged.isEmpty then
      dictSet payload "attachments"
        (.vattachments (filesMerged.enum.map
          (fun p => { id := p.1, filename := p.2.name, ephemeral := p.2.spoiler,
                      description := p.2.description })))
    else payload
  let payload := if ¬ suppress_embeds.isMissing then
      dictSet payload "flags" (.vflags (1 <<< 2))
    else payload
  payload

/-! ## User equality (`user.py`) -/

/-- The underlying JSON dict of a discord user, with the fields the
`User` properties project out. -/
structure UserData where
  id : String
  username : String := ""
  discriminator : String := ""
  avatar : Option String := none
  bot : Bool := false
  system : Bool := false
  mfa_enabled : Bool := false
  locale : Option String := none
  verified : Bool := false
  email : Option String := none
  premium_type : Option Int := none
  public_flags : Option Int := none
deriving DecidableEq

/-- `User` (`user.py`): a wrapper around its raw data dict. -/
structure User where
  data : UserData
deriving DecidableEq

/-- The `User.id` property (`user.py` lines 51-53). -/
def User.id (u : User) : String := u.data.id

/-- `User.__eq__` (`user.py` lines 107-108): compares ids only. -/
def User.eq (u other : User) : Bool := u.id == other.id

/-! ## Concrete fixtures for witnesses and counterexamples -/

/-- A 32-byte (64 hex character) all-zero public key. -/
def zeroKeyHex : String := String.mk (List.replicate 64 (Char.ofNat 48))

/-- A 64-byte (128 hex character) all-zero signature. -/
def zeroSigHex : String := String.mk (List.replicate 128 (Char.ofNat 48))

/-- Concrete binders whose output is empty/trivial. -/
def wBinders : Binders :=
  { slash_params := fun _ => [], context_menu_param := fun _ => Arg.target,
    select_menu_values := fun _ => Arg.target, modal_params := fun _ => [] }

/-- A callback that completes normally. -/
def okCallback : Callback := { tag := 5, run := fun _ => .ok () }

/-- A callback that raises. -/
def boomCallback : Callback := { tag := 6, run := fun _ => .error "boom" }

/-- A liveness (ping) interaction. -/
def pingInter : Interaction := { type := InteractionType.ping }

/-- An app state with empty registries. -/
def emptyApp : AppState := {}

/-- A registered command whose handler raises. -/
def c2Cmd : Command := { id := "1", name := "boomcmd", callback := some boomCallback }

/-- App state with `c2Cmd` registered and a global error hook installed. -/
def c2App : AppState :=
  { application_commands := [("1", c2Cmd)], error_hook := true }

/-- A slash-command interaction resolving to `c2Cmd`. -/
def c2Inter : Interaction :=
  { type := InteractionType.app_command, data := { id := "1" } }

/-- A pending command before synchronization. -/
def c3Cmd : Command := { name := "hello" }

/-- A registered command whose subcommand map is empty. -/
def c4Cmd : Command := { id := "42", name := "mod", callback := some okCallback }

/-- App state with `c4Cmd` registered and the error hook installed. -/
def c4App : AppState :=
  { application_commands := [("42", c4Cmd)], error_hook := true }

/-- A slash interaction whose first option is the subcommand `ban`, which
`c4Cmd` does not declare. -/
def c4Inter : Interaction :=
  { type := InteractionType.app_command,
    data := { id := "42", type := AppCmdType.slash,
              options := [{ name := "ban", type := AppCmdOptionType.subcommand }] } }

/-- The autocomplete callback of `c5Cmd`. -/
def c5Callback : Callback := { tag := 9, run := fun _ => .ok () }

/-- A registered command with an autocomplete callback. -/
def c5Cmd : Command := { id := "7", name := "tag", autocomplete_callback := some c5Callback }

/-- App state with `c5Cmd` registered. -/
def c5App : AppState := { application_commands := [("7", c5Cmd)] }

/-- Two options where the second, not the first, is the focused one. -/
def c5Opts : List AppCmdOption :=
  [{ name := "first", type := 3, value := PyVal.vstr "abc" },
   { name := "second", type := 3, value := PyVal.vstr "xy", focused := true }]

/-- An autocomplete interaction carrying `c5Opts`. -/
def c5Inter : Interaction :=
  { type := InteractionType.autocomplete, data := { id := "7", options := c5Opts } }

/-- A cog-attached registered command. -/
def c6Cmd : Command :=
  { id := "9", name := "grouped", cog := some 3, callback := some okCallback }

/-- App state with `c6Cmd` registered. -/
def c6App : AppState := { application_commands := [("9", c6Cmd)] }

/-- A slash interaction resolving to `c6Cmd` with no options. -/
def c6Inter : Interaction :=
  { type := InteractionType.app_command, data := { id := "9" } }

/-- The decorated coroutine attached by the registration decorator. -/
def c8Coro : Callback := { tag := 11, run := fun _ => .ok () }

/-- A flat-shaped command named `kick`. -/
def c8FlatKick : Command :=
  { name := "kick", options := [{ name := "user", type := 6 }] }

/-- A subcommand-shaped command also named `kick`. -/
def c8SubKick : Command :=
  { name := "kick",
    subcommand_callbacks := [("member", { tag := 12, run := fun _ => .ok () })] }

/-! ## Helper lemmas about the dict model -/

theorem assocGet_dictSet_self {α : Type} (l : List (String × α)) (k : String) (v : α) :
    assocGet (dictSet l k v) k = some v := by
  induction l with
  | nil => simp [dictSet, assocGet]
  | cons p rest ih =>
    by_cases h : p.1 = k
    · simp [dictSet, assocGet, h]
    · simp [dictSet, assocGet, h, ih]

theorem assocGet_dictSet_ne {α : Type} (l : List (String × α)) (k k' : String) (v : α)
    (h : ¬ k = k') : assocGet (dictSet l k v) k' = assocGet l k' := by
  induction l with
  | nil => simp [dictSet, assocGet, h]
  | cons p rest ih =>
    by_cases hp : p.1 = k
    · simp [dictSet, assocGet, hp, h]
    · simp [dictSet, assocGet, hp, ih]

theorem assocGet_ite_dictSet_ne {α : Type} {c : Prop} [Decidable c]
    (l : List (String × α)) (k k' : String) (v : α) (h : ¬ k = k') :
    assocGet (if c then dictSet l k v else l) k' = assocGet l k' := by
  split
  · exact assocGet_dictSet_ne l k k' v h
  · rfl

/-! ## Helper lemmas about the dispatch embedding -/

theorem runCall_calls (cb : Callback) (args : List Arg) (a : AppState) :
    (runCall (some cb) args a).2 =
      { lookups := 1, calls := [{ tag := cb.tag, args := args }] } := by
  cases h : cb.run args <;> simp [runCall, invokeOpt, h]

theorem mem_runCall_args (cb : Option Callback) (args : List Arg) (a : AppState)
    (call : RecordedCall) (h : call ∈ (runCall cb args a).2.calls) :
    call.args = args := by
  cases cb with
  | none => simp [runCall, invokeOpt] at h
  | some c =>
    rw [runCall_calls] at h
    simp at h
    rw [h]

theorem dispatch_calls (b : Binders) (i : Interaction) (a : AppState) :
    (dispatch b i a).2.calls = (dispatchTry b i a).2.calls := by
  unfold dispatch
  rcases h : dispatchTry b i a with ⟨res, t⟩
  cases res with
  | resp r => rfl
  | nothing => rfl
  | raised e => cases hh : a.error_hook <;> simp [hh]

theorem dispatchTry_ping (b : Binders) (i : Interaction) (a : AppState)
    (h : i.type = InteractionType.ping) :
    dispatchTry b i a =
      (.resp (.jsonObj [("type", PyVal.vint InteractionCallbackType.pong)] 200), {}) := by
  unfold dispatchTry
  rw [h]
  simp

theorem dispatchTry_app_command (b : Binders) (i : Interaction) (a : AppState)
    (cmd : Command) (h1 : i.type = InteractionType.app_command)
    (h2 : assocGet a.application_commands i.data.id = some cmd) :
    dispatchTry b i a = appCommandBranch b i a cmd := by
  unfold dispatchTry
  rw [h1, h2]
  simp [InteractionType.ping, InteractionType.app_command]

theorem dispatchTry_autocomplete (b : Binders) (i : Interaction) (a : AppState)
    (cmd : Command) (ht : i.type = InteractionType.autocomplete)
    (hc : assocGet a.application_commands i.data.id = some cmd) :
    dispatchTry b i a =
      (match i.data.options with
       | [] => (.raised "IndexError: list index out of range", { lookups := 1 })
       | o :: _ =>
         if o.value.truthy then
           runCall cmd.autocomplete_callback
             [Arg.inter, Arg.str o.name, Arg.val o.value] a
         else (.nothing, { lookups := 1 })) := by
  unfold dispatchTry
  rw [ht, hc]
  simp [InteractionType.ping, InteractionType.app_command, InteractionType.component,
    InteractionType.modal_submit, InteractionType.autocomplete]

theorem appCommandBranch_cog_first (b : Binders) (i : Interaction) (a : AppState)
    (cmd : Command) :
    ∀ call ∈ (appCommandBranch b i a cmd).2.calls,
      (∀ c, cmd.cog = some c → ∃ rest, call.args = Arg.cog c :: Arg.inter :: rest) ∧
      (cmd.cog = none → ∃ rest, call.args = Arg.inter :: rest) := by
  intro call hcall
  cases hcog : cmd.cog with
  | some c =>
    have hshape : ∃ rest, call.args = Arg.cog c :: Arg.inter :: rest := by
      simp only [appCommandBranch, hcog] at hcall
      split at hcall
      · exact ⟨[b.context_menu_param i], mem_runCall_args _ _ _ _ hcall⟩
      · split at hcall
        · split at hcall
          · exact ⟨b.slash_params i, mem_runCall_args _ _ _ _ hcall⟩
          · exact ⟨b.slash_params i, mem_runCall_args _ _ _ _ hcall⟩
        · exact ⟨b.slash_params i, mem_runCall_args _ _ _ _ hcall⟩
    refine ⟨?_, ?_⟩
    · intro c2 hc2
      injection hc2 with h2
      rw [← h2]
      exact hshape
    · intro hn
      exact Option.noConfusion hn
  | none =>
    have hshape : ∃ rest, call.args = Arg.inter :: rest := by
      simp only [appCommandBranch, hcog] at hcall
      split at hcall
      · exact ⟨[b.context_menu_param i], mem_runCall_args _ _ _ _ hcall⟩
      · split at hcall
        · split at hcall
          · exact ⟨b.slash_params i, mem_runCall_args _ _ _ _ hcall⟩
          · exact ⟨b.slash_params i, mem_runCall_args _ _ _ _ hcall⟩
        · exact ⟨b.slash_params i, mem_runCall_args _ _ _ _ hcall⟩
    refine ⟨?_, ?_⟩
    · intro c2 hc2
      exact Option.noConfusion hc2
    · intro _
      exact hshape

theorem sync_cmds_preserve (resp : Nat → Option String) :
    ∀ (cmds : List Command) (k : Nat) (reg : List (String × Command))
      (out : List Command × List (String × Command)) (rid : String),
      Client.sync_cmds resp k cmds reg = .ok out →
      (∀ j, j < cmds.length → resp (k + j) ≠ some rid) →
      assocGet out.2 rid = assocGet reg rid := by
  intro cmds
  induction cmds with
  | nil =>
    intro k reg out rid h hne
    simp only [Client.sync_cmds] at h
    injection h with h
    subst h
    rfl
  | cons c rest ih =>
    intro k reg out rid h hne
    simp only [Client.sync_cmds] at h
    cases hr : resp k with
    | none =>
      simp only [hr] at h
      exact Except.noConfusion h
    | some rid' =>
      simp only [hr] at h
      cases hs : Client.sync_cmds resp (k + 1) rest (dictSet reg rid' { c with id := rid' }) with
      | error e =>
        simp only [hs] at h
        exact Except.noConfusion h
      | ok pr =>
        obtain ⟨cs, reg'⟩ := pr
        simp only [hs] at h
        injection h with h
        subst h
        have hrid : ¬ rid' = rid := by
          intro he
          apply hne 0 (Nat.succ_pos rest.length)
          rw [Nat.add_zero, hr, he]
        have hne' : ∀ j, j < rest.length → resp (k + 1 + j) ≠ some rid := by
          intro j hj
          have h2 := hne (j + 1) (Nat.succ_lt_succ hj)
          have harith : k + (j + 1) = k + 1 + j := by omega
          rw [harith] at h2
          exact h2
        have hrec := ih (k + 1) (dictSet reg rid' { c with id := rid' }) (cs, reg') rid hs hne'
        calc assocGet reg' rid
            = assocGet (dictSet reg rid' { c with id := rid' }) rid := hrec
          _ = assocGet reg rid := assocGet_dictSet_ne reg rid' rid { c with id := rid' } hrid

theorem sync_cmds_entries (resp : Nat → Option String) :
    ∀ (cmds : List Command) (k : Nat) (reg : List (String × Command))
      (out : List Command × List (String × Command)),
      Client.sync_cmds resp k cmds reg = .ok out →
      (∀ j1 j2, j1 < cmds.length → j2 < cmds.length → j1 ≠ j2 →
        resp (k + j1) ≠ resp (k + j2)) →
      ∀ j, ∀ hj : j < cmds.length, ∃ rid, resp (k + j) = some rid ∧
        assocGet out.2 rid = some { cmds.get ⟨j, hj⟩ with id := rid } := by
  intro cmds
  induction cmds with
  | nil =>
    intro k reg out h hdist j hj
    exact absurd hj (by simp)
  | cons c rest ih =>
    intro k reg out h hdist j hj
    simp only [Client.sync_cmds] at h
    cases hr : resp k with
    | none =>
      simp only [hr] at h
      exact Except.noConfusion h
    | some rid =>
      simp only [hr] at h
      cases hs : Client.sync_cmds resp (k + 1) rest (dictSet reg rid { c with id := rid }) with
      | error e =>
        simp only [hs] at h
        exact Except.noConfusion h
      | ok pr =>
        obtain ⟨cs, reg'⟩ := pr
        simp only [hs] at h
        injection h with h
        subst h
        cases j with
        | zero =>
          refine ⟨rid, by simpa using hr, ?_⟩
          have hne' : ∀ j2, j2 < rest.length → resp (k + 1 + j2) ≠ some rid := by
            intro j2 hj2 hcontra
            have hd := hdist 0 (j2 + 1) (Nat.succ_pos rest.length)
              (Nat.succ_lt_succ hj2) (by omega)
            apply hd
            rw [Nat.add_zero, hr]
            have harith : k + (j2 + 1) = k + 1 + j2 := by omega
            rw [harith, hcontra]
          have hpres := sync_cmds_preserve resp rest (k + 1)
            (dictSet reg rid { c with id := rid }) (cs, reg') rid hs hne'
          show assocGet reg' rid = some { c with id := rid }
          calc assocGet reg' rid
              = assocGet (dictSet reg rid { c with id := rid }) rid := hpres
            _ = some { c with id := rid } :=
                assocGet_dictSet_self reg rid { c with id := rid }
        | succ j' =>
          have hj' : j' < rest.length := Nat.lt_of_succ_lt_succ hj
          have hdist' : ∀ j1 j2, j1 < rest.length → j2 < rest.length → j1 ≠ j2 →
              resp (k + 1 + j1) ≠ resp (k + 1 + j2) := by
            intro j1 j2 h1 h2 hne
            have hd := hdist (j1 + 1) (j2 + 1) (Nat.succ_lt_succ h1)
              (Nat.succ_lt_succ h2) (by omega)
            have e1 : k + (j1 + 1) = k + 1 + j1 := by omega
            have e2 : k + (j2 + 1) = k + 1 + j2 := by omega
            rw [e1, e2] at hd
            exact hd
          obtain ⟨rid', h1, h2⟩ :=
            ih (k + 1) (dictSet reg rid { c with id := rid }) (cs, reg') hs hdist' j' hj'
          refine ⟨rid', ?_, h2⟩
          have harith : k + (j' + 1) = k + 1 + j' := by omega
          rw [harith]
          exact h1

theorem sync_cmds_abort (resp : Nat → Option String) :
    ∀ (cmds : List Command) (k : Nat) (reg : List (String × Command)),
      (∃ j, j < cmds.length ∧ resp (k + j) = none) →
      Client.sync_cmds resp k cmds reg = .error "ValueError" := by
  intro cmds
  induction cmds with
  | nil =>
    intro k reg hex
    obtain ⟨j, hj, _⟩ := hex
    exact absurd hj (by simp)
  | cons c rest ih =>
    intro k reg hex
    cases hr : resp k with
    | none => simp only [Client.sync_cmds, hr]
    | some rid =>
      obtain ⟨j, hj, hnone⟩ := hex
      cases j with
      | zero =>
        rw [Nat.add_zero] at hnone
        rw [hnone] at hr
        exact Option.noConfusion hr
      | succ j' =>
        have harith : k + 1 + j' = k + (j' + 1) := by omega
        have hrec := ih (k + 1) (dictSet reg rid { c with id := rid })
          ⟨j', Nat.lt_of_succ_lt_succ hj, by rw [harith]; exact hnone⟩
        simp only [Client.sync_cmds, hr]
        rw [hrec]

/-! ## Claim theorems -/

/-- C1, counterexample: a request with NO signature header does not get
the 401 outcome.  `str(None)` is `"None"`, which `bytes.fromhex` rejects
with `ValueError`; only `BadSignatureError` is caught, so the exception
propagates uncaught to the HTTP layer instead of producing the 401
response. -/
theorem c1_counterexample_missing_signature :
    handler (fun _ _ _ => false) zeroKeyHex (some "12345") none [] wBinders
        pingInter emptyApp = (HttpResult.raised "ValueError", {}) ∧
      HttpResult.raised "ValueError" ≠
        HttpResult.resp (Response.text "BadSignature" 401) := by
  exact ⟨rfl, by decide⟩

/-- C1, amended: for every request whose public key and signature header
are well-formed (hex, correct lengths) but whose Ed25519 verification
fails, the handler returns exactly the 401 unauthorized response with an
empty trace — zero registry lookups, no callback invocations — and the
result does not depend on the interaction payload or the application
state, i.e. no payload is parsed before a PASS.  (A missing or non-hex
signature header instead raises an uncaught `ValueError`.) -/
theorem c1_unauthorized_amended (verifies : List Nat → List Nat → List Nat → Bool)
    (pk : String) (ts sig : Option String) (body : List Nat) (b : Binders)
    (i : Interaction) (a : AppState)
    (h : verifyRequest verifies pk ts sig body = .ok false) :
    handler verifies pk ts sig body b i a =
      (HttpResult.resp (Response.text "BadSignature" 401), {}) := by
  unfold handler
  rw [h]

/-- Witness for `c1_unauthorized_amended` at a concrete failing-signature
request. -/
theorem c1_unauthorized_witness :
    handler (fun _ _ _ => false) zeroKeyHex (some "12345") (some zeroSigHex) []
        wBinders pingInter emptyApp =
      (HttpResult.resp (Response.text "BadSignature" 401), {}) :=
  c1_unauthorized_amended (fun _ _ _ => false) zeroKeyHex (some "12345")
    (some zeroSigHex) [] wBinders pingInter emptyApp rfl

/-- C2: for an interaction of a recognized kind, any exception the
dispatch body raises (in particular one raised by the resolved handler)
is caught at the router boundary: with the process-wide error hook
installed it is forwarded there, and the HTTP layer receives the
best-effort `None` response rather than the uncaught exception. -/
theorem c2_handler_exception_hooked (b : Binders) (i : Interaction) (a : AppState)
    (e : Exn)
    (_hkind : i.type = InteractionType.ping ∨ i.type = InteractionType.app_command ∨
      i.type = InteractionType.component ∨ i.type = InteractionType.modal_submit ∨
      i.type = InteractionType.autocomplete)
    (hhook : a.error_hook = true)
    (hraise : (dispatchTry b i a).1 = HttpResult.raised e) :
    (dispatch b i a).1 = HttpResult.nothing ∧
      (dispatch b i a).2.hookCalls = (dispatchTry b i a).2.hookCalls ++ [e] := by
  rcases hd : dispatchTry b i a with ⟨res, t⟩
  rw [hd] at hraise
  simp only at hraise
  subst hraise
  simp [dispatch, hd, hhook]

/-- Witness for `c2_handler_exception_hooked`: a slash command whose
handler raises `"boom"`. -/
theorem c2_handler_exception_hooked_witness :
    (dispatch wBinders c2Inter c2App).1 = HttpResult.nothing ∧
      (dispatch wBinders c2Inter c2App).2.hookCalls =
        (dispatchTry wBinders c2Inter c2App).2.hookCalls ++ ["boom"] :=
  c2_handler_exception_hooked wBinders c2Inter c2App "boom"
    (Or.inr (Or.inl rfl)) rfl rfl

/-- C3, counterexample: it is not true that a successful sync pass leaves
every registry entry with a NON-EMPTY id.  A platform response whose `id`
field is the empty string is accepted (only a missing `id` key aborts),
and the command is stored and indexed under `""`. -/
theorem c3_sync_counterexample :
    ¬ (∀ out, Client.call (fun _ => some "") [c3Cmd] = Except.ok out →
        ∀ k c, assocGet out.2 k = some c → c.id ≠ "") := by
  intro hclaim
  exact hclaim ([], [("", { c3Cmd with id := "" })]) rfl "" { c3Cmd with id := "" }
    rfl rfl

/-- C3, amended: (i) after a successful startup pass the pending command
list is empty; (ii) when the platform returns pairwise-distinct ids, the
registry entry under the id returned for the `j`-th declared command is
exactly that declared command carrying that id — which may be the empty
string, the code does not check non-emptiness; (iii) a sync response
lacking the `id` key aborts startup with `ValueError`. -/
theorem c3_sync_amended (resp : Nat → Option String) (cmds : List Command) :
    (∀ out, Client.call resp cmds = .ok out → out.1 = []) ∧
    (∀ out, Client.call resp cmds = .ok out →
      (∀ j1 j2, j1 < cmds.length → j2 < cmds.length → j1 ≠ j2 → resp j1 ≠ resp j2) →
      ∀ j, ∀ hj : j < cmds.length, ∃ rid, resp j = some rid ∧
        assocGet out.2 rid = some { cmds.get ⟨j, hj⟩ with id := rid }) ∧
    ((∃ j, j < cmds.length ∧ resp j = none) →
      Client.call resp cmds = .error "ValueError") := by
  refine ⟨?_, ?_, ?_⟩
  · intro out h
    unfold Client.call at h
    cases hs : Client.sync_cmds resp 0 cmds [] with
    | error e =>
      simp only [hs] at h
      exact Except.noConfusion h
    | ok pr =>
      obtain ⟨cs, reg⟩ := pr
      simp only [hs] at h
      injection h with h
      subst h
      rfl
  · intro out h hdist j hj
    unfold Client.call at h
    cases hs : Client.sync_cmds resp 0 cmds [] with
    | error e =>
      simp only [hs] at h
      exact Except.noConfusion h
    | ok pr =>
      obtain ⟨cs, reg⟩ := pr
      simp only [hs] at h
      injection h with h
      subst h
      have hd : ∀ j1 j2, j1 < cmds.length → j2 < cmds.length → j1 ≠ j2 →
          resp (0 + j1) ≠ resp (0 + j2) := by
        intro j1 j2 h1 h2 hne
        simpa using hdist j1 j2 h1 h2 hne
      have hout := sync_cmds_entries resp cmds 0 [] (cs, reg) hs hd j hj
      simpa using hout
  · intro hex
    obtain ⟨j, hj, hnone⟩ := hex
    unfold Client.call
    rw [sync_cmds_abort resp cmds 0 [] ⟨j, hj, by simpa using hnone⟩]

/-- Witness for `c3_sync_amended`: one command, platform returns id
`"99"` (success conjunct: the registry entry is the declared command with
that id), and a response lacking the id key aborts with `ValueError`. -/
theorem c3_sync_amended_witness :
    (∃ rid, (some "99" : Option String) = some rid ∧
      assocGet [("99", { c3Cmd with id := "99" })] rid
        = some { c3Cmd with id := rid }) ∧
    Client.call (fun _ => none) [c3Cmd] = Except.error "ValueError" := by
  constructor
  · exact (c3_sync_amended (fun _ => some "99") [c3Cmd]).2.1
      ([], [("99", { c3Cmd with id := "99" })]) rfl
      (by
        intro j1 j2 h1 h2 hne
        simp only [List.length_singleton, Nat.lt_one_iff] at h1 h2
        exact absurd (h1.trans h2.symm) hne) 0 (by decide)
  · exact (c3_sync_amended (fun _ => none) [c3Cmd]).2.2 ⟨0, by decide, rfl⟩

/-- C4 (code bug): a slash interaction whose first option is a subcommand
absent from the resolved command's subcommand map does NOT produce a
404-equivalent `CommandNotFound` response.  `handler.py` fetches the
subcommand with `.get` and invokes the resulting `None`, raising
`TypeError`; the blanket `except` forwards it to the error hook and the
HTTP layer receives `None`.  Evaluated at the concrete failing input. -/
theorem c4_missing_subcommand_bug :
    dispatch wBinders c4Inter c4App =
      (HttpResult.nothing,
        { lookups := 1, calls := [],
          hookCalls := ["TypeError: NoneType is not callable"] }) ∧
      (dispatch wBinders c4Inter c4App).1 ≠
        HttpResult.resp (Response.jsonObj
          [("error", PyVal.vstr "command not found!")] 404) := by
  exact ⟨rfl, by decide⟩

/-- C5, counterexample: for an autocomplete interaction whose FOCUSED
option is the second one, the handler invokes the autocomplete callback
with the FIRST option's name and value, not the focused pair. -/
theorem c5_counterexample_first_option :
    (dispatch wBinders c5Inter c5App).2.calls =
      [{ tag := 9, args := [Arg.inter, Arg.str "first", Arg.val (PyVal.vstr "abc")] }] ∧
      (focusedOption c5Opts).map AppCmdOption.name = some "second" ∧
      ("first" : String) ≠ "second" := by
  exact ⟨rfl, rfl, by decide⟩

/-- C5, amended: for an autocomplete interaction resolving to a command
with an autocomplete callback, the callback is invoked with exactly the
FIRST option entry's name and value (not the focused one), and only when
that value is truthy. -/
theorem c5_first_option_amended (b : Binders) (i : Interaction) (a : AppState)
    (cmd : Command) (cb : Callback) (o : AppCmdOption) (rest : List AppCmdOption)
    (ht : i.type = InteractionType.autocomplete)
    (hc : assocGet a.application_commands i.data.id = some cmd)
    (hcb : cmd.autocomplete_callback = some cb)
    (ho : i.data.options = o :: rest)
    (hv : o.value.truthy = true) :
    (dispatch b i a).2.calls =
      [{ tag := cb.tag, args := [Arg.inter, Arg.str o.name, Arg.val o.value] }] := by
  rw [dispatch_calls, dispatchTry_autocomplete b i a cmd ht hc]
  simp only [ho]
  rw [if_pos hv, hcb, runCall_calls]

/-- Witness for `c5_first_option_amended` at the concrete two-option
autocomplete interaction. -/
theorem c5_first_option_amended_witness :
    (dispatch wBinders c5Inter c5App).2.calls =
      [{ tag := c5Callback.tag,
         args := [Arg.inter, Arg.str "first", Arg.val (PyVal.vstr "abc")] }] :=
  c5_first_option_amended wBinders c5Inter c5App c5Cmd c5Callback
    { name := "first", type := 3, value := PyVal.vstr "abc" } [c5Opts.get ⟨1, by decide⟩]
    rfl rfl rfl rfl rfl

/-- C6: every callback invocation made while dispatching a resolved
command interaction leads with the cog object followed by the interaction
context when the command is cog-attached, and with the interaction
context when it is standalone. -/
theorem c6_cog_first (b : Binders) (i : Interaction) (a : AppState) (cmd : Command)
    (h1 : i.type = InteractionType.app_command)
    (h2 : assocGet a.application_commands i.data.id = some cmd) :
    ∀ call ∈ (dispatch b i a).2.calls,
      (∀ c, cmd.cog = some c → ∃ rest, call.args = Arg.cog c :: Arg.inter :: rest) ∧
      (cmd.cog = none → ∃ rest, call.args = Arg.inter :: rest) := by
  intro call hcall
  rw [dispatch_calls, dispatchTry_app_command b i a cmd h1 h2] at hcall
  exact appCommandBranch_cog_first b i a cmd call hcall

/-- Witness for `c6_cog_first`: the cog-attached `c6Cmd` is invoked with
the cog leading the argument list. -/
theorem c6_cog_first_witness :
    ∃ rest, ([Arg.cog 3, Arg.inter] : List Arg) = Arg.cog 3 :: Arg.inter :: rest :=
  (c6_cog_first wBinders c6Inter c6App c6Cmd rfl rfl
    { tag := 5, args := [Arg.cog 3, Arg.inter] } (by decide)).1 3 rfl

/-- C7: a verified request of the ping kind is answered immediately with
the fixed pong body and an empty trace — zero registry lookups, no
callback invocations — and the result does not depend on the registries,
so the identical ping payload always yields the identical reply. -/
theorem c7_ping_pong (verifies : List Nat → List Nat → List Nat → Bool)
    (pk : String) (ts sig : Option String) (body : List Nat) (b : Binders)
    (i : Interaction) (a : AppState)
    (hv : verifyRequest verifies pk ts sig body = .ok true)
    (hp : i.type = InteractionType.ping) :
    handler verifies pk ts sig body b i a =
      (.resp (.jsonObj [("type", PyVal.vint InteractionCallbackType.pong)] 200), {}) := by
  unfold handler
  rw [hv]
  unfold dispatch
  rw [dispatchTry_ping b i a hp]

/-- Witness for `c7_ping_pong` at a concrete verified ping request. -/
theorem c7_ping_pong_witness :
    handler (fun _ _ _ => true) zeroKeyHex (some "12345") (some zeroSigHex) []
        wBinders pingInter emptyApp =
      (.resp (.jsonObj [("type", PyVal.vint InteractionCallbackType.pong)] 200), {}) :=
  c7_ping_pong (fun _ _ _ => true) zeroKeyHex (some "12345") (some zeroSigHex) []
    wBinders pingInter emptyApp rfl rfl

/-- C8, counterexample: registering a second command named `kick` with a
conflicting flat-and-subcommand shape does not fail — there is no
duplicate check anywhere in the registration path — and the conflicting
command IS added: the pending catalog ends up with both. -/
theorem c8_counterexample_duplicate_added :
    (Client.command (Client.command [] c8FlatKick c8Coro true) c8SubKick c8Coro
        true).map Command.name = ["kick", "kick"] := by
  rfl

/-- C8, amended: registering a coroutine-backed command always appends it
to the pending catalog, even when a command of the same name (of any
shape) is already present; no `DuplicateDeclaration` failure exists. -/
theorem c8_register_appends_amended (catalog : List Command)
    (cmd coexisting : Command) (coro : Callback) (_h : coexisting ∈ catalog)
    (_hn : coexisting.name = cmd.name) :
    Client.command catalog cmd coro true =
      catalog ++ [{ cmd with callback := some coro }] := by
  simp [Client.command]

/-- Witness for `c8_register_appends_amended`: the conflicting `kick` is
appended next to the existing one. -/
theorem c8_register_appends_amended_witness :
    Client.command [c8FlatKick] c8SubKick c8Coro true =
      [c8FlatKick] ++ [{ c8SubKick with callback := some c8Coro }] :=
  c8_register_appends_amended [c8FlatKick] c8SubKick c8FlatKick c8Coro
    (List.mem_singleton.mpr rfl) rfl

/-- C9: the edit payload contains the key `flags` exactly when
`suppress_embeds` was passed explicitly — even as `False` or `None` — and
its value is then always `1 << 2 = 4`, because `handle_edit_params` only
tests `suppress_embeds is not MISSING` and never looks at the value. -/
theorem c9_edit_flags (content : PyOpt String) (embed : PyOpt Embed)
    (embeds : PyOpt (List Embed)) (view : PyOpt View) (tts : PyOpt Bool)
    (file : PyOpt File) (files : PyOpt (List File))
    (suppress_embeds : PyOpt Bool) :
    assocGet (handle_edit_params content embed embeds view tts file files
        suppress_embeds) "flags"
      = if suppress_embeds.isMissing then none else some (EditVal.vflags 4) := by
  cases hs : suppress_embeds.isMissing with
  | true =>
    rw [if_pos (Eq.refl true)]
    simp only [handle_edit_params]
    rw [if_neg (show ¬ ¬ (suppress_embeds.isMissing = true) by simp [hs])]
    rw [assocGet_ite_dictSet_ne _ "attachments" "flags" _ (by decide),
        assocGet_ite_dictSet_ne _ "components" "flags" _ (by decide),
        assocGet_ite_dictSet_ne _ "embeds" "flags" _ (by decide),
        assocGet_ite_dictSet_ne _ "tts" "flags" _ (by decide),
        assocGet_ite_dictSet_ne _ "content" "flags" _ (by decide),
        assocGet_ite_dictSet_ne _ "attachments" "flags" _ (by decide),
        assocGet_ite_dictSet_ne _ "attachments" "flags" _ (by decide),
        assocGet_ite_dictSet_ne _ "components" "flags" _ (by decide),
        assocGet_ite_dictSet_ne _ "embeds" "flags" _ (by decide),
        assocGet_ite_dictSet_ne _ "embeds" "flags" _ (by decide)]
    rfl
  | false =>
    rw [if_neg (show ¬ (false = true) by decide)]
    simp only [handle_edit_params]
    rw [if_pos (show ¬ (suppress_embeds.isMissing = true) by simp [hs])]
    rw [assocGet_dictSet_self]
    rfl

/-- C10: two `User` objects compare equal under `__eq__` exactly when
their ids are equal, regardless of every other field of the underlying
data. -/
theorem c10_user_eq_by_id (u v : User) :
    User.eq u v = true ↔ u.data.id = v.data.id := by
  simp [User.eq, User.id]

end Discohook
